import Mathlib

/-!
Verification of the recurring-schedule conflict detection and status
lifecycle logic of the scr_coaching repository.

The embedding models:
* the `schedules` table rows (`src/db/schema.ts`, `schedules`) as the
  structure `Schedule`; the columns `running_days`, `effective_start_date`
  and `effective_end_date` are referenced throughout `src/server/routes.ts`
  but are absent from the schema file in the sources, so those three
  fields are modelled from their use in the routes and the spec data model;
* `checkScheduleConflicts` (`src/server/routes.ts` lines 335-360): a SQL
  `SELECT ... WHERE` over the schedules of one train followed by a
  running-days filter in JS;
* the `POST /api/schedules` handler (lines 361-456) as `postSchedules`;
* the `PATCH /api/schedules/:id` handler (lines 606-616) as
  `patchScheduleRoute`;
* the websocket `updateSchedule` handler (`src/server/websocket.ts`
  lines 19-43) as `wsApply` / `updateScheduleWS`.

Timestamps and dates are modelled as integers (epoch seconds); only their
order matters, together with the SQL literal `'9999-12-31'` which is the
fixed constant `sentinelEnd`.  The persisted table is modelled as a
`List Schedule` in the row order the database returns (the conflict query
has no `ORDER BY`, so no particular order is imposed on it).
-/

/-- A row of the `schedules` table.  Field names follow
`src/db/schema.ts`; `trainId`, `departureLocationId` and
`arrivalLocationId` are nullable columns, hence `Option`. -/
structure Schedule where
  id : Int
  trainId : Option Int
  departureLocationId : Option Int
  arrivalLocationId : Option Int
  scheduledDeparture : Int
  scheduledArrival : Int
  actualDeparture : Option Int
  actualArrival : Option Int
  status : String
  isCancelled : Bool
  runningDays : List Bool
  effectiveStartDate : Int
  effectiveEndDate : Option Int
deriving DecidableEq

/-- The SQL date literal `'9999-12-31'` used in `checkScheduleConflicts`
for a candidate with no effective end date, as an epoch-seconds value
(2932896 days of 86400 seconds since 1970-01-01). -/
def sentinelEnd : Int := 253402214400

/-- PostgreSQL `(s1, e1) OVERLAPS (s2, e2)`: each pair is normalised so
that its start is not after its end, then the periods overlap when the
later start lies strictly before the other period's end; two periods
with equal starts always overlap.  This is the evaluation rule of the
`OVERLAPS` operator applied at line 342 of `src/server/routes.ts`. -/
def overlapsSQL (s1 e1 s2 e2 : Int) : Bool :=
  if min s2 e2 < min s1 e1 then decide (min s1 e1 < max s2 e2)
  else if min s1 e1 < min s2 e2 then decide (min s2 e2 < max s1 e1)
  else true

/-- The date-range clause of the conflict query (lines 345-348 of
`src/server/routes.ts`):
`effective_start_date <= (candidate end ?? '9999-12-31') AND
(effective_end_date IS NULL OR effective_end_date >= candidate start)`.
`candStart`/`candEnd` are the candidate's dates, `rowStart`/`rowEnd` the
stored row's columns. -/
def dateCond (candStart : Int) (candEnd : Option Int)
    (rowStart : Int) (rowEnd : Option Int) : Bool :=
  decide (rowStart ≤ candEnd.getD sentinelEnd) &&
  (match rowEnd with
   | none => true
   | some e => decide (candStart ≤ e))

/-- The `AND id != excludeScheduleId` clause (line 349): in the source it
is added only when `excludeScheduleId` is truthy, so a missing id or the
(unused in practice) id `0` adds no restriction. -/
def excludeCond (excludeScheduleId : Option Int) (row : Schedule) : Bool :=
  match excludeScheduleId with
  | none => true
  | some e => if e = 0 then true else row.id != e

/-- The JS running-days filter (lines 354-359):
`schedule.runningDays.some((runs, index) => runs && runningDays[index])`,
iterating the stored row's array and indexing the candidate's; an index
beyond the candidate's array yields `undefined`, which is falsy. -/
def runningDaysSome (rowDays candDays : List Bool) : Bool :=
  (List.range rowDays.length).any fun i =>
    rowDays.getD i false && candDays.getD i false

/-- `checkScheduleConflicts` (`src/server/routes.ts` lines 335-360): the
SQL query filters the snapshot `store` by train id, non-cancelled flag,
`OVERLAPS` on the scheduled times, the date-range clause and the optional
id exclusion; the JS filter then keeps rows sharing a running day. -/
def checkScheduleConflicts (store : List Schedule) (trainId : Int)
    (scheduledDeparture scheduledArrival : Int)
    (effectiveStartDate : Int) (effectiveEndDate : Option Int)
    (runningDays : List Bool) (excludeScheduleId : Option Int) :
    List Schedule :=
  let overlappingSchedules := store.filter fun row =>
    row.trainId == some trainId &&
    row.isCancelled == false &&
    overlapsSQL row.scheduledDeparture row.scheduledArrival
      scheduledDeparture scheduledArrival &&
    dateCond effectiveStartDate effectiveEndDate
      row.effectiveStartDate row.effectiveEndDate &&
    excludeCond excludeScheduleId row
  overlappingSchedules.filter fun row =>
    runningDaysSome row.runningDays runningDays

/-- Spec-side predicate (from the spec's words, for comparison with the
code): the effective date ranges intersect, a missing end date on either
side treated as open-ended. -/
def dateRangesIntersect (candStart : Int) (candEnd : Option Int)
    (rowStart : Int) (rowEnd : Option Int) : Bool :=
  (match rowEnd with
   | none => true
   | some e => decide (candStart ≤ e)) &&
  (match candEnd with
   | none => true
   | some e => decide (rowStart ≤ e))

/-- Spec-side predicate (from the spec's words): half-open time-interval
overlap, `candidate.scheduledDeparture < other.scheduledArrival AND
other.scheduledDeparture < candidate.scheduledArrival`. -/
def timeOverlapHalfOpen (candDep candArr rowDep rowArr : Int) : Bool :=
  decide (candDep < rowArr) && decide (rowDep < candArr)

/-- Spec-side predicate (from the spec's words): the running-day arrays
share an index `i` in `[0, 6]` at which both are `true`. -/
def runningDaysIntersect (a b : List Bool) : Bool :=
  (List.range 7).any fun i => a.getD i false && b.getD i false

/-- Outcome of the `POST /api/schedules` handler.  The two validation
errors correspond to the 400 responses at lines 383-388 and 404-409 of
`src/server/routes.ts`; `conflictError` to the 409 at lines 421-431
carrying `{id, scheduledDeparture, scheduledArrival}` triples; `created`
to the insert at lines 433-441. -/
inductive PostResult where
  | validationErrorArrival
  | validationErrorEndDate
  | conflictError (conflicts : List (Int × Int × Int))
  | created (sched : Schedule)
deriving DecidableEq

/-- The check `effectiveEndDate && effectiveEndDate <= effectiveStartDate`
(line 404). -/
def endBeforeStart (effectiveStartDate : Int)
    (effectiveEndDate : Option Int) : Bool :=
  match effectiveEndDate with
  | none => false
  | some e => decide (e ≤ effectiveStartDate)

/-- The inserted row of a successful creation: the request fields plus
the schema defaults `status = 'scheduled'`, `isCancelled = false`
(`src/db/schema.ts` lines 52-53) and the database-assigned id. -/
def newScheduleOf (newId trainId scheduledDeparture scheduledArrival
    effectiveStartDate : Int) (effectiveEndDate : Option Int)
    (runningDays : List Bool) : Schedule :=
  { id := newId
    trainId := some trainId
    departureLocationId := none
    arrivalLocationId := none
    scheduledDeparture := scheduledDeparture
    scheduledArrival := scheduledArrival
    actualDeparture := none
    actualArrival := none
    status := "scheduled"
    isCancelled := false
    runningDays := runningDays
    effectiveStartDate := effectiveStartDate
    effectiveEndDate := effectiveEndDate }

/-- The `POST /api/schedules` handler (`src/server/routes.ts` lines
361-456): reject when the scheduled arrival is not after the departure,
then when a present effective end date is not after the start date, then
run `checkScheduleConflicts` (with no exclusion id); a non-empty result
is returned as a 409 with the reduced conflict triples, otherwise the
row is inserted.  The result pairs the table after the request with the
response.  (The handler never validates `runningDays`.) -/
def postSchedules (store : List Schedule) (newId trainId
    scheduledDeparture scheduledArrival effectiveStartDate : Int)
    (effectiveEndDate : Option Int) (runningDays : List Bool) :
    List Schedule × PostResult :=
  if scheduledArrival ≤ scheduledDeparture then
    (store, PostResult.validationErrorArrival)
  else if endBeforeStart effectiveStartDate effectiveEndDate then
    (store, PostResult.validationErrorEndDate)
  else
    let conflicts := checkScheduleConflicts store trainId
      scheduledDeparture scheduledArrival effectiveStartDate
      effectiveEndDate runningDays none
    if 0 < conflicts.length then
      (store, PostResult.conflictError (conflicts.map fun c =>
        (c.id, c.scheduledDeparture, c.scheduledArrival)))
    else
      (store ++ [newScheduleOf newId trainId scheduledDeparture
        scheduledArrival effectiveStartDate effectiveEndDate
        runningDays],
       PostResult.created (newScheduleOf newId trainId
        scheduledDeparture scheduledArrival effectiveStartDate
        effectiveEndDate runningDays))

/-- Body of a `PATCH /api/schedules/:id` request restricted to the time
and recurrence columns (the handler at lines 606-616 of
`src/server/routes.ts` passes `req.body` to `.set` unchanged; a `none`
field here is one absent from the body and hence left untouched). -/
structure PatchBody where
  scheduledDeparture : Option Int
  scheduledArrival : Option Int
  runningDays : Option (List Bool)
  effectiveStartDate : Option Int
  effectiveEndDate : Option (Option Int)
deriving DecidableEq

/-- Effect of `db.update(schedules).set(req.body)` on one row. -/
def applyPatch (b : PatchBody) (s : Schedule) : Schedule :=
  { s with
    scheduledDeparture := b.scheduledDeparture.getD s.scheduledDeparture
    scheduledArrival := b.scheduledArrival.getD s.scheduledArrival
    runningDays := b.runningDays.getD s.runningDays
    effectiveStartDate := b.effectiveStartDate.getD s.effectiveStartDate
    effectiveEndDate := b.effectiveEndDate.getD s.effectiveEndDate }

/-- The `PATCH /api/schedules/:id` handler (`src/server/routes.ts` lines
606-616): it applies the body to the row with the given id and persists
the result directly; it contains no call to `checkScheduleConflicts`. -/
def patchScheduleRoute (store : List Schedule) (id : Int)
    (b : PatchBody) : List Schedule :=
  store.map fun s => if s.id == id then applyPatch b s else s

/-- A websocket `updateSchedule` message (`src/server/websocket.ts`
lines 19-24): `none` models an omitted, `null` or empty timestamp, which
the handler's truthiness test sends to SQL `NULL`. -/
structure UpdateMsg where
  id : Int
  status : String
  actualDeparture : Option Int
  actualArrival : Option Int
deriving DecidableEq

/-- Effect of the handler's `.set` clause (lines 27-32) on one row: the
status is taken from the message and both actual-time columns are
overwritten, with `NULL` when the message value is absent. -/
def wsApply (m : UpdateMsg) (s : Schedule) : Schedule :=
  { s with
    status := m.status
    actualDeparture := m.actualDeparture
    actualArrival := m.actualArrival }

/-- The whole `updateSchedule` handler (lines 19-43): the update is
applied to every row whose id matches the message, unconditionally. -/
def updateScheduleWS (store : List Schedule) (m : UpdateMsg) :
    List Schedule :=
  store.map fun s => if s.id == m.id then wsApply m s else s

/-- The per-row conflict tests of `checkScheduleConflicts` with the
candidate's fields drawn from an existing schedule `cand`: the
`OVERLAPS` clause, the date-range clause and the running-days filter, in
the role assignment of the source (train scoping, cancellation flag and
id exclusion are the candidate-set conditions, not part of the tests). -/
def conflictTests (cand other : Schedule) : Bool :=
  overlapsSQL other.scheduledDeparture other.scheduledArrival
    cand.scheduledDeparture cand.scheduledArrival &&
  dateCond cand.effectiveStartDate cand.effectiveEndDate
    other.effectiveStartDate other.effectiveEndDate &&
  runningDaysSome other.runningDays cand.runningDays

/-- All-days running pattern, `[true × 7]`. -/
def allDays : List Bool := [true, true, true, true, true, true, true]

/-! ## Concrete instances used by counterexamples and witnesses -/

/-- A plain valid schedule row: train 1, times 0-100, runs every day,
effective from 0 with no end date, freshly created. -/
def baseSched : Schedule :=
  { id := 1
    trainId := some 1
    departureLocationId := none
    arrivalLocationId := none
    scheduledDeparture := 0
    scheduledArrival := 100
    actualDeparture := none
    actualArrival := none
    status := "scheduled"
    isCancelled := false
    runningDays := allDays
    effectiveStartDate := 0
    effectiveEndDate := none }

/-- A stored schedule whose recurrence starts on 10000-01-01, one day
after the SQL sentinel date. -/
def cexSentinelRow : Schedule :=
  { baseSched with
    id := 11
    scheduledDeparture := 50
    scheduledArrival := 150
    effectiveStartDate := sentinelEnd + 86400 }

/-- An ordinary overlapping row for the C1 witness. -/
def wRow1 : Schedule :=
  { baseSched with
    id := 21
    scheduledDeparture := 50
    scheduledArrival := 150 }

/-- A completed schedule with both actual times recorded. -/
def cexCompleted : Schedule :=
  { baseSched with
    id := 5
    status := "completed"
    actualDeparture := some 100
    actualArrival := some 200 }

/-- A message requesting the terminal-state schedule back to running. -/
def cexMsgRunning : UpdateMsg :=
  { id := 5
    status := "running"
    actualDeparture := some 300
    actualArrival := none }

/-- A cancelled (terminal) schedule for the C2 witness. -/
def wSched2 : Schedule :=
  { baseSched with
    id := 6
    status := "cancelled" }

/-- A message moving the cancelled schedule to delayed. -/
def wMsg2 : UpdateMsg :=
  { id := 6
    status := "delayed"
    actualDeparture := none
    actualArrival := none }

/-- A row exactly back-to-back after the candidate interval 0-100. -/
def wRowBtb : Schedule :=
  { baseSched with
    id := 31
    scheduledDeparture := 100
    scheduledArrival := 200 }

/-- A schedule in the initial state with the flag clear. -/
def cexSched4 : Schedule :=
  { baseSched with id := 7 }

/-- A message setting the status to cancelled. -/
def cexMsgCancel4 : UpdateMsg :=
  { id := 7
    status := "cancelled"
    actualDeparture := none
    actualArrival := none }

/-- Existing schedule of train 1 at 0-100 (id 1). -/
def bugRowA5 : Schedule := baseSched

/-- Second schedule of train 1, initially at the disjoint slot 200-300. -/
def bugRowB5 : Schedule :=
  { baseSched with
    id := 2
    scheduledDeparture := 200
    scheduledArrival := 300 }

/-- A PATCH body moving schedule 2 onto 50-150, which overlaps
schedule 1. -/
def bugPatch5 : PatchBody :=
  { scheduledDeparture := some 50
    scheduledArrival := some 150
    runningDays := none
    effectiveStartDate := none
    effectiveEndDate := none }

/-- Conflicting row with the larger id, listed first in the store. -/
def cexRow7a : Schedule :=
  { baseSched with id := 2 }

/-- Conflicting row with the smaller id, listed second in the store. -/
def cexRow7b : Schedule :=
  { baseSched with
    id := 1
    scheduledDeparture := 10
    scheduledArrival := 90 }

/-- Open-ended schedule starting at 0. -/
def cexOpen9 : Schedule :=
  { baseSched with id := 91 }

/-- Schedule whose recurrence starts one day after the sentinel date. -/
def cexLate9 : Schedule :=
  { baseSched with
    id := 92
    scheduledDeparture := 50
    scheduledArrival := 150
    effectiveStartDate := sentinelEnd + 86400 }

/-- First schedule of the C9 witness pair. -/
def wA9 : Schedule :=
  { baseSched with id := 93 }

/-- Second schedule of the C9 witness pair, with a bounded range. -/
def wB9 : Schedule :=
  { baseSched with
    id := 94
    scheduledDeparture := 30
    scheduledArrival := 80
    effectiveStartDate := 10
    effectiveEndDate := some 1000 }

/-- A running schedule with a recorded actual departure. -/
def wRun10 : Schedule :=
  { baseSched with
    id := 8
    status := "running"
    actualDeparture := some 100 }

/-- A delay message carrying no timestamps. -/
def wMsgDelay10 : UpdateMsg :=
  { id := 8
    status := "delayed"
    actualDeparture := none
    actualArrival := none }


/-! ## Helper lemmas -/

theorem overlapsSQL_eq_strict {s1 e1 s2 e2 : Int} (h1 : s1 < e1)
    (h2 : s2 < e2) :
    overlapsSQL s1 e1 s2 e2 = (decide (s1 < e2) && decide (s2 < e1)) := by
  unfold overlapsSQL
  rw [min_eq_left h1.le, max_eq_right h1.le, min_eq_left h2.le,
    max_eq_right h2.le]
  rcases lt_trichotomy s1 s2 with h | h | h
  · rw [if_neg (by omega), if_pos h, decide_eq_true (show s1 < e2 by omega),
      Bool.true_and]
  · rw [if_neg (by omega), if_neg (by omega),
      decide_eq_true (show s1 < e2 by omega),
      decide_eq_true (show s2 < e1 by omega)]
    rfl
  · rw [if_pos h, decide_eq_true (show s2 < e1 by omega), Bool.and_true]

theorem overlapsSQL_comm (s1 e1 s2 e2 : Int) :
    overlapsSQL s1 e1 s2 e2 = overlapsSQL s2 e2 s1 e1 := by
  unfold overlapsSQL
  rcases lt_trichotomy (min s1 e1) (min s2 e2) with h | h | h
  · rw [if_neg (by omega), if_pos h, if_pos h]
  · rw [if_neg (by omega), if_neg (by omega), if_neg (by omega),
      if_neg (by omega)]
  · rw [if_pos h, if_neg (by omega), if_pos h]

theorem runningDaysSome_eq_true {a b : List Bool} :
    runningDaysSome a b = true ↔
      ∃ i, a.getD i false = true ∧ b.getD i false = true := by
  unfold runningDaysSome
  rw [List.any_eq_true]
  constructor
  · rintro ⟨i, -, h⟩
    rw [Bool.and_eq_true] at h
    exact ⟨i, h.1, h.2⟩
  · rintro ⟨i, hai, hbi⟩
    refine ⟨i, List.mem_range.mpr ?_, by rw [hai, hbi]; rfl⟩
    by_contra hlt
    push_neg at hlt
    rw [List.getD_eq_default _ _ hlt] at hai
    exact Bool.false_ne_true hai

theorem runningDaysSome_comm (a b : List Bool) :
    runningDaysSome a b = runningDaysSome b a := by
  rw [Bool.eq_iff_iff, runningDaysSome_eq_true, runningDaysSome_eq_true]
  constructor <;> rintro ⟨i, h1, h2⟩ <;> exact ⟨i, h2, h1⟩

theorem runningDaysIntersect_eq_true {a b : List Bool} :
    runningDaysIntersect a b = true ↔
      ∃ i, i < 7 ∧ a.getD i false = true ∧ b.getD i false = true := by
  unfold runningDaysIntersect
  rw [List.any_eq_true]
  constructor
  · rintro ⟨i, hi, h⟩
    rw [Bool.and_eq_true] at h
    exact ⟨i, List.mem_range.mp hi, h.1, h.2⟩
  · rintro ⟨i, hi, h1, h2⟩
    exact ⟨i, List.mem_range.mpr hi, by rw [h1, h2]; rfl⟩

theorem runningDaysSome_eq_intersect {a b : List Bool}
    (ha : a.length = 7) :
    runningDaysSome a b = runningDaysIntersect a b := by
  rw [Bool.eq_iff_iff, runningDaysSome_eq_true,
    runningDaysIntersect_eq_true]
  constructor
  · rintro ⟨i, h1, h2⟩
    refine ⟨i, ?_, h1, h2⟩
    by_contra hlt
    push_neg at hlt
    rw [List.getD_eq_default _ _ (ha ▸ hlt)] at h1
    exact Bool.false_ne_true h1
  · rintro ⟨i, -, h1, h2⟩
    exact ⟨i, h1, h2⟩

theorem dateCond_symm {cS oS : Int} (cE oE : Option Int)
    (hc : cS ≤ sentinelEnd) (ho : oS ≤ sentinelEnd) :
    dateCond cS cE oS oE = dateCond oS oE cS cE := by
  unfold dateCond
  rcases cE with - | e1 <;> rcases oE with - | e2 <;>
    simp only [Option.getD_none, Option.getD_some]
  · rw [decide_eq_true hc, decide_eq_true ho]
  · rw [decide_eq_true ho, Bool.true_and, Bool.and_true]
  · rw [decide_eq_true hc, Bool.true_and, Bool.and_true]
  · rw [Bool.and_comm]

theorem mem_checkScheduleConflicts {store : List Schedule}
    {trainId dep arr effStart : Int} {effEnd : Option Int}
    {days : List Bool} {ex : Option Int} {row : Schedule} :
    row ∈ checkScheduleConflicts store trainId dep arr effStart effEnd
        days ex ↔
      row ∈ store ∧ row.trainId = some trainId ∧
      row.isCancelled = false ∧
      overlapsSQL row.scheduledDeparture row.scheduledArrival dep arr
        = true ∧
      dateCond effStart effEnd row.effectiveStartDate
        row.effectiveEndDate = true ∧
      excludeCond ex row = true ∧
      runningDaysSome row.runningDays days = true := by
  unfold checkScheduleConflicts
  simp only [List.mem_filter, Bool.and_eq_true, beq_iff_eq]
  tauto

/-! ## Claim C1 -/

/-- Claim C1, counterexample: a non-cancelled stored schedule of the
candidate's train whose recurrence starts the day after 9999-12-31.
Read with a missing candidate `effectiveEndDate` as open-ended, all
three overlap conditions hold, yet `checkScheduleConflicts` reports
nothing, because the query compares the row's start date against the
literal `'9999-12-31'`. -/
theorem c1_counterexample :
    dateRangesIntersect 0 none cexSentinelRow.effectiveStartDate
      cexSentinelRow.effectiveEndDate = true ∧
    timeOverlapHalfOpen 0 100 cexSentinelRow.scheduledDeparture
      cexSentinelRow.scheduledArrival = true ∧
    runningDaysIntersect allDays cexSentinelRow.runningDays = true ∧
    cexSentinelRow.isCancelled = false ∧
    cexSentinelRow.trainId = some 1 ∧
    checkScheduleConflicts [cexSentinelRow] 1 0 100 0 none allDays none
      = [] := by
  decide

/-- Claim C1 (amended): for every stored non-cancelled schedule of the
candidate's train (both with valid time intervals, the row with a
7-slot running-day array), the detector reports it iff the date ranges
intersect — the candidate's missing `effectiveEndDate` read as the date
9999-12-31, the row's missing `effectiveEndDate` as open-ended — and
the running-day arrays share an index in [0,6], and the scheduled time
intervals overlap under half-open semantics. -/
theorem checkScheduleConflicts_mem_iff (store : List Schedule)
    (trainId dep arr effStart : Int) (effEnd : Option Int)
    (days : List Bool) (row : Schedule)
    (hmem : row ∈ store) (htrain : row.trainId = some trainId)
    (hcanc : row.isCancelled = false)
    (hrowt : row.scheduledDeparture < row.scheduledArrival)
    (hcandt : dep < arr) (hrlen : row.runningDays.length = 7) :
    row ∈ checkScheduleConflicts store trainId dep arr effStart effEnd
        days none ↔
      (dateCond effStart effEnd row.effectiveStartDate
         row.effectiveEndDate = true ∧
       timeOverlapHalfOpen dep arr row.scheduledDeparture
         row.scheduledArrival = true ∧
       runningDaysIntersect row.runningDays days = true) := by
  rw [mem_checkScheduleConflicts, overlapsSQL_eq_strict hrowt hcandt,
    runningDaysSome_eq_intersect hrlen]
  simp only [excludeCond, timeOverlapHalfOpen, Bool.and_eq_true,
    decide_eq_true_eq]
  constructor
  · rintro ⟨-, -, -, ⟨h1, h2⟩, hd, -, hr⟩
    exact ⟨hd, ⟨h2, h1⟩, hr⟩
  · rintro ⟨hd, ⟨h2, h1⟩, hr⟩
    exact ⟨hmem, htrain, hcanc, ⟨h1, h2⟩, hd, trivial, hr⟩

/-- Claim C1 (amended), witness at a concrete overlapping row. -/
theorem checkScheduleConflicts_mem_iff_witness :
    wRow1 ∈ checkScheduleConflicts [wRow1] 1 0 100 0 none allDays none ↔
      (dateCond 0 none wRow1.effectiveStartDate
         wRow1.effectiveEndDate = true ∧
       timeOverlapHalfOpen 0 100 wRow1.scheduledDeparture
         wRow1.scheduledArrival = true ∧
       runningDaysIntersect wRow1.runningDays allDays = true) :=
  checkScheduleConflicts_mem_iff [wRow1] 1 0 100 0 none allDays wRow1
    (by decide) (by decide) (by decide) (by decide) (by decide)
    (by decide)

/-! ## Claim C3 -/

/-- Claim C3: two schedules of the same train that are exactly
back-to-back (the candidate's arrival equals the row's departure or
vice versa) are never reported as conflicting, whatever the store, the
exclusion id, and however their date ranges and running days overlap:
the `OVERLAPS` clause is half-open on a boundary touch. -/
theorem backToBack_no_conflict (store : List Schedule)
    (trainId dep arr effStart : Int) (effEnd : Option Int)
    (days : List Bool) (ex : Option Int) (row : Schedule)
    (hcandt : dep < arr)
    (hrowt : row.scheduledDeparture < row.scheduledArrival)
    (hbb : arr = row.scheduledDeparture ∨ row.scheduledArrival = dep)
    (_hdate : dateRangesIntersect effStart effEnd row.effectiveStartDate
      row.effectiveEndDate = true)
    (_hdays : runningDaysIntersect days row.runningDays = true) :
    row ∉ checkScheduleConflicts store trainId dep arr effStart effEnd
      days ex := by
  intro hmem
  rw [mem_checkScheduleConflicts] at hmem
  obtain ⟨-, -, -, hov, -, -, -⟩ := hmem
  rw [overlapsSQL_eq_strict hrowt hcandt, Bool.and_eq_true,
    decide_eq_true_eq, decide_eq_true_eq] at hov
  rcases hbb with h | h <;> omega

/-- Claim C3, witness: the candidate 0-100 against the stored row
100-200 on the same days and dates. -/
theorem backToBack_no_conflict_witness :
    (100 : Int) = wRowBtb.scheduledDeparture ∧
    wRowBtb ∉ checkScheduleConflicts [wRowBtb] 1 0 100 0 none allDays
      none :=
  ⟨by decide,
   backToBack_no_conflict [wRowBtb] 1 0 100 0 none allDays none wRowBtb
     (by decide) (by decide) (Or.inl (by decide)) (by decide)
     (by decide)⟩

/-! ## Claim C2 -/

/-- Claim C2, counterexample: the schedule is in the terminal state
`completed`, the requested transition to `running` is outside any
transition table, yet the handler overwrites `status`,
`actualDeparture` and `actualArrival`. -/
theorem c2_counterexample :
    (cexCompleted.status, cexCompleted.actualDeparture,
      cexCompleted.actualArrival) = ("completed", some 100, some 200) ∧
    ((updateScheduleWS [cexCompleted] cexMsgRunning).map fun s =>
      (s.status, s.actualDeparture, s.actualArrival)) =
      [("running", some 300, none)] := by
  decide

/-- Claim C2 (amended): the websocket handler performs no transition
validation: for every store and message, every stored schedule with the
message's id — whatever its current status, terminal or not — is
replaced by a row whose status is the requested one and whose
actual-time fields are overwritten from the message. -/
theorem wsUpdate_applies_any_status (store : List Schedule)
    (m : UpdateMsg) (s : Schedule) (hs : s ∈ store)
    (hid : s.id = m.id) :
    wsApply m s ∈ updateScheduleWS store m ∧
    (wsApply m s).status = m.status ∧
    (wsApply m s).actualDeparture = m.actualDeparture ∧
    (wsApply m s).actualArrival = m.actualArrival := by
  refine ⟨?_, rfl, rfl, rfl⟩
  unfold updateScheduleWS
  have h2 := List.mem_map_of_mem
    (fun t => if t.id == m.id then wsApply m t else t) hs
  simpa [hid] using h2

/-- Claim C2 (amended), witness: a cancelled (terminal) schedule is
moved to `delayed` anyway. -/
theorem wsUpdate_applies_any_status_witness :
    wsApply wMsg2 wSched2 ∈ updateScheduleWS [wSched2] wMsg2 ∧
    (wsApply wMsg2 wSched2).status = wMsg2.status ∧
    (wsApply wMsg2 wSched2).actualDeparture = wMsg2.actualDeparture ∧
    (wsApply wMsg2 wSched2).actualArrival = wMsg2.actualArrival :=
  wsUpdate_applies_any_status [wSched2] wMsg2 wSched2 (by decide)
    (by decide)

/-! ## Claim C4 -/

/-- Claim C4, counterexample: a status update that sets the status to
`cancelled` leaves `isCancelled` at `false`, breaking the invariant
`isCancelled == (status == 'cancelled')`. -/
theorem c4_counterexample :
    cexSched4.isCancelled = false ∧
    ((updateScheduleWS [cexSched4] cexMsgCancel4).map fun s =>
      (s.status, s.isCancelled)) = [("cancelled", false)] := by
  decide

/-- Claim C4 (amended): the invariant is established by the creation
defaults (`status = 'scheduled'`, `isCancelled = false`), but the
websocket status update never touches `isCancelled`, so an update
setting `status = 'cancelled'` does not set the flag and the invariant
is not maintained across operations. -/
theorem wsApply_ignores_isCancelled :
    (∀ (m : UpdateMsg) (s : Schedule),
      (wsApply m s).isCancelled = s.isCancelled) ∧
    (∀ (newId trainId dep arr effStart : Int) (effEnd : Option Int)
      (days : List Bool),
      ((newScheduleOf newId trainId dep arr effStart effEnd
          days).isCancelled = true ↔
       (newScheduleOf newId trainId dep arr effStart effEnd
          days).status = "cancelled")) := by
  constructor
  · intro m s
    rfl
  · intro newId trainId dep arr effStart effEnd days
    simp only [newScheduleOf]
    constructor
    · intro h
      exact absurd h (by decide)
    · intro h
      exact absurd h (by decide)

/-! ## Claim C10 -/

/-- Claim C10: a websocket update whose message omits `actualDeparture`
or `actualArrival` overwrites the corresponding stored column with
`NULL` instead of preserving its previous value. -/
theorem ws_omitted_actuals_become_null (m : UpdateMsg) (s : Schedule) :
    (m.actualDeparture = none → (wsApply m s).actualDeparture = none) ∧
    (m.actualArrival = none → (wsApply m s).actualArrival = none) := by
  constructor
  · intro h
    simp [wsApply, h]
  · intro h
    simp [wsApply, h]

/-- Claim C10, witness: marking a running schedule `delayed` with no
timestamps erases its recorded `actualDeparture`. -/
theorem ws_omitted_actuals_become_null_witness :
    wRun10.actualDeparture = some 100 ∧
    (wsApply wMsgDelay10 wRun10).actualDeparture = none :=
  ⟨rfl, (ws_omitted_actuals_become_null wMsgDelay10 wRun10).1 rfl⟩

/-! ## Claim C5 -/

/-- Claim C5, evaluation at the failing input: schedules 1 (0-100) and
2 (200-300) of train 1 coexist without conflict; a PATCH moving
schedule 2 to 50-150 is persisted unchanged by the route — there is no
call to the detector in the handler — although re-running
`checkScheduleConflicts` on the persisted store with the route's id as
exclusion reports schedule 1 as conflicting. -/
theorem patch_persists_conflicting_update :
    ((patchScheduleRoute [bugRowA5, bugRowB5] 2 bugPatch5).map fun s =>
      (s.id, s.scheduledDeparture, s.scheduledArrival)) =
      [(1, 0, 100), (2, 50, 150)] ∧
    checkScheduleConflicts
      (patchScheduleRoute [bugRowA5, bugRowB5] 2 bugPatch5)
      1 50 150 0 none allDays (some 2) = [bugRowA5] := by
  decide

/-! ## Claim C6 -/

/-- Claim C6, counterexample: a creation request whose `runningDays`
has length 3 — not 7 — passes untouched: it is not rejected, conflict
detection runs, and the malformed row is persisted. -/
theorem c6_counterexample :
    ([true, true, true] : List Bool).length ≠ 7 ∧
    postSchedules [] 1 1 0 100 0 none [true, true, true] =
      ([newScheduleOf 1 1 0 100 0 none [true, true, true]],
       PostResult.created
         (newScheduleOf 1 1 0 100 0 none [true, true, true])) := by
  decide

/-- Claim C6 (amended): a creation request whose scheduled arrival is
not after its departure, or whose present effective end date is not
after the start date, is rejected with a validation error, nothing is
persisted, and the response does not depend on the stored schedules
(so conflict detection never influences it); the length of
`runningDays` is not validated. -/
theorem post_rejects_malformed_dates (store : List Schedule)
    (newId trainId dep arr effStart : Int) (effEnd : Option Int)
    (days : List Bool)
    (h : arr ≤ dep ∨ endBeforeStart effStart effEnd = true) :
    (postSchedules store newId trainId dep arr effStart effEnd
      days).1 = store ∧
    ((postSchedules store newId trainId dep arr effStart effEnd
       days).2 = PostResult.validationErrorArrival ∨
     (postSchedules store newId trainId dep arr effStart effEnd
       days).2 = PostResult.validationErrorEndDate) ∧
    (postSchedules store newId trainId dep arr effStart effEnd
      days).2 =
      (postSchedules [] newId trainId dep arr effStart effEnd
        days).2 := by
  unfold postSchedules
  by_cases h1 : arr ≤ dep
  · rw [if_pos h1, if_pos h1]
    exact ⟨rfl, Or.inl rfl, rfl⟩
  · have h2 : endBeforeStart effStart effEnd = true := by tauto
    rw [if_neg h1, if_neg h1, if_pos h2, if_pos h2]
    exact ⟨rfl, Or.inr rfl, rfl⟩

/-- Claim C6 (amended), witness: arrival 50 not after departure 100,
rejected over a non-empty store which is left unchanged. -/
theorem post_rejects_malformed_dates_witness :
    (postSchedules [baseSched] 1 1 100 50 0 none allDays).1 =
      [baseSched] ∧
    ((postSchedules [baseSched] 1 1 100 50 0 none allDays).2 =
       PostResult.validationErrorArrival ∨
     (postSchedules [baseSched] 1 1 100 50 0 none allDays).2 =
       PostResult.validationErrorEndDate) ∧
    (postSchedules [baseSched] 1 1 100 50 0 none allDays).2 =
      (postSchedules [] 1 1 100 50 0 none allDays).2 :=
  post_rejects_malformed_dates [baseSched] 1 1 100 50 0 none allDays
    (Or.inl (by decide))

/-! ## Claim C7 -/

/-- Claim C7, counterexample: with the store listing ids 2 then 1, both
conflicting, the detector returns them in store order [2, 1], which is
not sorted by ascending id (the query has no ORDER BY). -/
theorem c7_counterexample :
    (checkScheduleConflicts [cexRow7a, cexRow7b] 1 0 100 0 none allDays
      none).map Schedule.id = [2, 1] ∧
    ¬ List.Sorted (fun a b => a ≤ b) ([2, 1] : List Int) := by
  constructor
  · decide
  · intro h
    have := List.rel_of_sorted_cons h 1 (by simp)
    omega

/-- Claim C7 (amended): for a field-valid creation request, an empty
detector result means the row is inserted and the creation succeeds,
while a non-empty result leaves the store unchanged and returns a
conflict response carrying the detector's rows — in the detector's
own (store) order — each reduced to
`{id, scheduledDeparture, scheduledArrival}`. -/
theorem post_conflict_response (store : List Schedule)
    (newId trainId dep arr effStart : Int) (effEnd : Option Int)
    (days : List Bool) (hv1 : dep < arr)
    (hv2 : endBeforeStart effStart effEnd = false) :
    (checkScheduleConflicts store trainId dep arr effStart effEnd days
        none = [] →
      postSchedules store newId trainId dep arr effStart effEnd days =
        (store ++ [newScheduleOf newId trainId dep arr effStart effEnd
          days],
         PostResult.created (newScheduleOf newId trainId dep arr
          effStart effEnd days))) ∧
    (checkScheduleConflicts store trainId dep arr effStart effEnd days
        none ≠ [] →
      postSchedules store newId trainId dep arr effStart effEnd days =
        (store,
         PostResult.conflictError ((checkScheduleConflicts store
           trainId dep arr effStart effEnd days none).map fun c =>
           (c.id, c.scheduledDeparture, c.scheduledArrival)))) := by
  unfold postSchedules
  rw [if_neg (by omega), if_neg (by rw [hv2]; exact Bool.false_ne_true)]
  constructor
  · intro h
    simp [h]
  · intro h
    rcases hc : checkScheduleConflicts store trainId dep arr effStart
      effEnd days none with - | ⟨c, cs⟩
    · exact absurd hc h
    · simp [hc]

/-- Claim C7 (amended), witness: the empty store yields no conflicts
and the creation proceeds. -/
theorem post_conflict_response_witness :
    (checkScheduleConflicts [] 1 0 100 0 none allDays none = [] →
      postSchedules [] 1 1 0 100 0 none allDays =
        ([] ++ [newScheduleOf 1 1 0 100 0 none allDays],
         PostResult.created (newScheduleOf 1 1 0 100 0 none
           allDays))) ∧
    (checkScheduleConflicts [] 1 0 100 0 none allDays none ≠ [] →
      postSchedules [] 1 1 0 100 0 none allDays =
        ([],
         PostResult.conflictError ((checkScheduleConflicts [] 1 0 100 0
           none allDays none).map fun c =>
           (c.id, c.scheduledDeparture, c.scheduledArrival)))) :=
  post_conflict_response [] 1 1 0 100 0 none allDays (by decide)
    (by decide)

/-! ## Claim C9 -/

/-- Claim C9, counterexample: with schedule 91 open-ended from 0 and
schedule 92 starting the day after 9999-12-31, the per-row conflict
tests hold with 92 as candidate against 91 but fail with the roles
swapped: the sentinel in the date clause breaks symmetry. -/
theorem c9_counterexample :
    conflictTests cexLate9 cexOpen9 = true ∧
    conflictTests cexOpen9 cexLate9 = false := by
  decide

/-- Claim C9 (amended): the conflict tests are symmetric for all pairs
of schedules whose effective start dates do not exceed 9999-12-31 —
which is every representable calendar date up to the sentinel. -/
theorem conflictTests_symm (A B : Schedule)
    (hA : A.effectiveStartDate ≤ sentinelEnd)
    (hB : B.effectiveStartDate ≤ sentinelEnd) :
    conflictTests A B = conflictTests B A := by
  unfold conflictTests
  rw [overlapsSQL_comm, runningDaysSome_comm,
    dateCond_symm A.effectiveEndDate B.effectiveEndDate hA hB]

/-- Claim C9 (amended), witness at two ordinary schedules. -/
theorem conflictTests_symm_witness :
    wA9.effectiveStartDate ≤ sentinelEnd ∧
    conflictTests wA9 wB9 = conflictTests wB9 wA9 :=
  ⟨by decide, conflictTests_symm wA9 wB9 (by decide) (by decide)⟩
